import Mathlib

/-!
Shallow embedding of `src/irs_refund.py` (IRS refund-status checker).

The script has two pieces:
* `get_user_data` (input resolver): reads four values from a `.env` key-value
  store, or prompts interactively with validation loops; optionally persists
  the raw values back; maps the human-readable filing-status code to the
  target-site code via `filing_status_id_map` after upper-casing, terminating
  the process (`exit()`) when the lookup fails.
* `check_irs_status` (form driver): launches a browser, fills the form through
  a sequence of waits, extracts the result with a primary/secondary fallback,
  writes debug dumps when `--debug` is set, and always quits the driver in a
  `finally` block.

Interactive input is modelled as streams of candidate entries (one per
re-prompt iteration); the browser/page environment is modelled as an oracle
`World` saying how each wait/interaction turns out; the observable behaviour
of the driver is a trace of events.
-/

/-! ## Python string primitives used by the script -/

/-- Python truthiness of `os.getenv` results: `None` and `""` are falsy. -/
def pyTruthy : Option String → Bool
  | none => false
  | some s => !(s == "")

/-- Python `s.replace("-", "")`: remove every hyphen character. -/
def pyReplaceDashes (s : String) : String := ⟨s.data.filter (fun c => c ≠ '-')⟩

/-- Python `s.upper()` restricted to ASCII, which is all the script compares. -/
def pyUpper (s : String) : String := ⟨s.data.map Char.toUpper⟩

/-- Python `s.isdigit()` for ASCII strings: nonempty and all digit characters. -/
def pyIsDigit (s : String) : Bool := !s.data.isEmpty && s.data.all Char.isDigit

/-- Python `strip`: drop leading and trailing whitespace characters. -/
def stripChars (l : List Char) : List Char :=
  ((l.dropWhile Char.isWhitespace).reverse.dropWhile Char.isWhitespace).reverse

/-- Python `s.strip().lower()` (applied to the save-confirmation answer). -/
def pyStripLower (s : String) : String := ⟨(stripChars s.data).map Char.toLower⟩

/-- Python `s.strip()` (applied to scraped result text before printing). -/
def pyStrip (s : String) : String := ⟨stripChars s.data⟩

/-! ## Input resolver: data and tables (lines 43-135 of the source) -/

/-- The enumerated tax years accepted by the interactive loop (line 58). -/
def supportedYears : List String := ["2024", "2023", "2022", "2021"]

def valid_tax_year (s : String) : Bool := supportedYears.contains s

/-- The numbered filing-status menu (lines 62-64). -/
def filing_status_options : List (String × String) :=
  [("1", "SINGLE"), ("2", "MFJ"), ("3", "MFS"), ("4", "HOH"), ("5", "QW")]

/-- The five human-readable filing-status codes (keys of the id map). -/
def filingStatusNames : List String := ["SINGLE", "MFJ", "MFS", "HOH", "QW"]

/-- `filing_status_id_map` (lines 116-122): menu code to target-site id. -/
def filing_status_id_map : List (String × String) :=
  [("SINGLE", "SINGLE"),
   ("MFJ", "MARRIED_FILING_JOINT"),
   ("MFS", "MARRIED_FILING_SEPARATE"),
   ("HOH", "HEAD_OF_HOUSEHOLD"),
   ("QW", "QUALIFYING_SURVIVING_SPOUSE")]

/-- Line 123: `filing_status_id_map.get(filing_status_name.upper())`.
`None` models the falsy lookup result that triggers `exit()` on line 127. -/
def resolveFilingStatus (name : String) : Option String :=
  filing_status_id_map.lookup (pyUpper name)

/-- Command-line flags relevant to the modelled behaviour. -/
structure Args where
  browser : String
  verbose : Bool
  debug : Bool
  save_env : Bool
deriving DecidableEq

/-- The `.env` key-value store: the four recognized keys, each possibly absent. -/
structure EnvFile where
  ssn : Option String
  tax_year : Option String
  filing_status : Option String
  refund_amount : Option String
deriving DecidableEq

/-- The stream of interactive answers: one string per prompt for the single
`getpass` SSN prompt and the confirmation, a list of successive attempts for
each re-prompt loop. -/
structure Interactive where
  ssn_input : String
  tax_year_inputs : List String
  status_inputs : List String
  amount_inputs : List String
  confirm_save : String
deriving DecidableEq

/-- The record returned by `get_user_data` (lines 129-135). -/
structure UserData where
  ssn : String
  tax_year : String
  filing_status_id : String
  filing_status_name : String
  amount : String
deriving DecidableEq

/-- How a run of `get_user_data` can fail to return a record:
`exited` is the `exit()` call on line 127; `noInput` models an interactive
re-prompt loop that never receives a valid entry (the loop never returns). -/
inductive GErr
  | exited
  | noInput
deriving DecidableEq

instance {ε α : Type} [DecidableEq ε] [DecidableEq α] : DecidableEq (Except ε α) :=
  fun a b =>
    match a, b with
    | Except.ok x, Except.ok y =>
      if h : x = y then isTrue (by rw [h]) else isFalse (by intro hc; cases hc; exact h rfl)
    | Except.error x, Except.error y =>
      if h : x = y then isTrue (by rw [h]) else isFalse (by intro hc; cases hc; exact h rfl)
    | Except.ok _, Except.error _ => isFalse (by intro hc; cases hc)
    | Except.error _, Except.ok _ => isFalse (by intro hc; cases hc)

/-- How the try block of `save_to_env` (lines 26-36) turns out: the four
`set_key` calls run in order (SSN, TAX_YEAR, FILING_STATUS, REFUND_AMOUNT)
and an exception at any point — including before the first call — is caught
by the handler on line 39, leaving only the keys already written. -/
inductive SaveOutcome
  | allOk
  | failSSN
  | failYear
  | failStatus
  | failAmount
deriving DecidableEq

/-- `save_to_env` (lines 24-41): `set_key` each of the four raw values in
order, inside a try/except; an exception leaves the prefix written so far
and the function returns `False` instead of `True`. -/
def save_to_env (ssn_raw tax_year filing_status_name amount : String)
    (env : EnvFile) (so : SaveOutcome) : Bool × EnvFile :=
  match so with
  | SaveOutcome.failSSN => (false, env)
  | SaveOutcome.failYear => (false, { env with ssn := some ssn_raw })
  | SaveOutcome.failStatus =>
    (false, { env with ssn := some ssn_raw, tax_year := some tax_year })
  | SaveOutcome.failAmount =>
    (false,
     { env with
        ssn := some ssn_raw
        tax_year := some tax_year
        filing_status := some filing_status_name })
  | SaveOutcome.allOk =>
    (true, { ssn := some ssn_raw, tax_year := some tax_year,
             filing_status := some filing_status_name,
             refund_amount := some amount })

/-- A `while True` re-prompt loop (lines 56-60, 79-83): returns the first
entry satisfying the predicate, `none` when no entry ever does. -/
def firstValid (p : String → Bool) : List String → Option String
  | [] => none
  | x :: xs => if p x then some x else firstValid p xs

/-- The filing-status menu loop (lines 72-77): the first entry that is a key
of `filing_status_options` is mapped to its status name. -/
def statusFromChoices : List String → Option String
  | [] => none
  | x :: xs =>
    match filing_status_options.lookup x with
    | some name => some name
    | none => statusFromChoices xs

/-- Line 51: `all([ssn_raw, tax_year, filing_status_name, refund_amount])`. -/
def allPresentB (env : EnvFile) : Bool :=
  pyTruthy env.ssn && pyTruthy env.tax_year &&
  pyTruthy env.filing_status && pyTruthy env.refund_amount

/-- `get_user_data` (lines 43-135).  Returns the outcome (record, `exit()`,
or a loop that never terminates) together with the resulting `.env` state;
`so` is the oracle for the `set_key` calls of a confirmed save (the caller
ignores `save_to_env`'s boolean result, line 105). -/
def get_user_data (args : Args) (env : EnvFile) (io : Interactive)
    (so : SaveOutcome) : Except GErr UserData × EnvFile :=
  let collected : Except GErr (String × String × String × String × EnvFile) :=
    if !allPresentB env then
      match firstValid valid_tax_year io.tax_year_inputs with
      | none => Except.error GErr.noInput
      | some tax_year =>
        match statusFromChoices io.status_inputs with
        | none => Except.error GErr.noInput
        | some filing_status_name =>
          match firstValid pyIsDigit io.amount_inputs with
          | none => Except.error GErr.noInput
          | some amount =>
            let ssn := io.ssn_input
            let env2 :=
              if args.save_env && (pyStripLower io.confirm_save == "yes") then
                (save_to_env ssn tax_year filing_status_name amount env so).2
              else env
            Except.ok (ssn, tax_year, filing_status_name, amount, env2)
    else
      Except.ok (env.ssn.getD "", env.tax_year.getD "",
                 env.filing_status.getD "", env.refund_amount.getD "", env)
  match collected with
  | Except.error e => (Except.error e, env)
  | Except.ok (ssn, tax_year, filing_status_name, amount, env2) =>
    let processed_ssn := if ssn == "" then "" else pyReplaceDashes ssn
    match resolveFilingStatus filing_status_name with
    | none => (Except.error GErr.exited, env2)
    | some fsid =>
      (Except.ok { ssn := processed_ssn,
                   tax_year := tax_year,
                   filing_status_id := fsid,
                   filing_status_name := filing_status_name,
                   amount := amount }, env2)

/-! ## Form driver: `check_irs_status` (lines 137-375)

The browser and page are an oracle (`World`) saying how each phase turns out;
the function produces the trace of observable events. -/

/-- The exception classes distinguished by the handlers on lines 317-358. -/
inductive ExcKind
  | timeoutExc
  | noSuchElementExc
  | otherExc
deriving DecidableEq

/-- How the launch phase (lines 147-222) turns out for a supported browser:
success, an exception before the driver variable is assigned (e.g. the
webdriver-manager install), or an exception after (e.g. the CDP setup call). -/
inductive LaunchOutcome
  | ok
  | failBefore (e : ExcKind)
  | failAfter (e : ExcKind)
deriving DecidableEq

/-- How the secondary alert wait (lines 293-298) turns out: visible with the
given text, timed out, or raised a non-timeout exception (which propagates to
the outer handlers, since it is raised inside an `except` clause). -/
inductive SecondaryOutcome
  | visible (text : String)
  | timedOut
  | raised (e : ExcKind)
deriving DecidableEq

/-- How the result-extraction step (lines 283-315) turns out: the primary
current-step indicator becomes visible (with the enclosing list item's text),
or it times out and the secondary wait runs, or a non-timeout exception is
raised in the primary block and caught by the generic handler on line 302. -/
inductive ExtractOutcome
  | primaryVisible (liText : String)
  | primaryTimeout (sec : SecondaryOutcome)
  | primaryRaised (msg : String)
deriving DecidableEq

/-- How the form-filling phase (lines 226-276) turns out: one of the six
interactions (navigate, SSN, tax year, filing status, amount, submit) raises,
or all succeed and the run reaches the extraction step. -/
inductive RunOutcome
  | stepFail (i : Fin 6) (e : ExcKind)
  | extract (x : ExtractOutcome)
deriving DecidableEq

/-- Whether a `driver.save_screenshot` and the page-source write succeed
(each dump block is wrapped in its own try/except, lines 306-315 etc.). -/
structure DumpWorld where
  shotOk : Bool
  htmlOk : Bool
deriving DecidableEq

/-- The oracle for one driver run. `dump` is used by whichever failure-path
debug dump runs (at most one per run); `finalDump` by the teardown dump. -/
structure World where
  launch : LaunchOutcome
  run : RunOutcome
  dump : DumpWorld
  finalDump : DumpWorld
deriving DecidableEq

/-- Observable events of a driver run. -/
inductive Event
  | reportStatus (s : String)
  | reportAlert (s : String)
  | reportNoResult
  | reportFailure (e : ExcKind)
  | reportExtractError (msg : String)
  | writeFile (name : String)
  | quit
deriving DecidableEq

/-- One debug-dump attempt (screenshot then page source, each may fail). -/
def attemptDump (shotName htmlName : String) (d : DumpWorld) : List Event :=
  if d.shotOk then
    Event.writeFile shotName :: (if d.htmlOk then [Event.writeFile htmlName] else [])
  else []

/-- The `if driver and args.debug:` failure dump (lines 304-315, 319-330,
333-344, 347-358), writing the fixed names `irs_debug_screenshot.png` and
`irs_debug_page.html`. -/
def failureDump (driverPresent : Bool) (args : Args) (d : DumpWorld) : List Event :=
  if driverPresent && args.debug then
    attemptDump "irs_debug_screenshot.png" "irs_debug_page.html" d
  else []

/-- The result-extraction step (lines 283-315): trace of events plus the
exception, if any, escaping to the outer handlers. -/
def extractEvents (args : Args) (d : DumpWorld) : ExtractOutcome → List Event × Option ExcKind
  | ExtractOutcome.primaryVisible t => ([Event.reportStatus (pyStrip t)], none)
  | ExtractOutcome.primaryTimeout (SecondaryOutcome.visible t) =>
      ([Event.reportAlert (pyStrip t)], none)
  | ExtractOutcome.primaryTimeout SecondaryOutcome.timedOut =>
      ([Event.reportNoResult], none)
  | ExtractOutcome.primaryTimeout (SecondaryOutcome.raised e) => ([], some e)
  | ExtractOutcome.primaryRaised m =>
      (Event.reportExtractError m :: failureDump true args d, none)

def supportedBrowser (args : Args) : Bool :=
  args.browser == "firefox" || args.browser == "chrome" || args.browser == "edge"

/-- The `try` block of `check_irs_status` (lines 146-315): trace of events,
whether the driver variable was assigned, and the exception, if any, reaching
the outer `except` handlers. -/
def tryPhase (args : Args) (w : World) : List Event × Bool × Option ExcKind :=
  if !supportedBrowser args then ([], false, none)
  else
    match w.launch with
    | LaunchOutcome.failBefore e => ([], false, some e)
    | LaunchOutcome.failAfter e => ([], true, some e)
    | LaunchOutcome.ok =>
      match w.run with
      | RunOutcome.stepFail _ e => ([], true, some e)
      | RunOutcome.extract x =>
        let r := extractEvents args w.dump x
        (r.1, true, r.2)

/-- The outer `except` handlers (lines 317-358): report the failure and, when
the driver exists and debug mode is on, attempt the debug dump. -/
def handlerEvents (args : Args) (w : World) (driverPresent : Bool) :
    Option ExcKind → List Event
  | none => []
  | some e => Event.reportFailure e :: failureDump driverPresent args w.dump

/-- The `finally` block (lines 359-375): when debug mode is on, attempt the
final dump with the fixed names `irs_final_debug_*`, then always `quit()`. -/
def finallyEvents (args : Args) (w : World) (driverPresent : Bool) : List Event :=
  if driverPresent then
    (if args.debug then
      attemptDump "irs_final_debug_screenshot.png" "irs_final_debug_page.html" w.finalDump
     else []) ++ [Event.quit]
  else []

/-- `check_irs_status` (lines 137-375) as a trace of observable events. -/
def check_irs_status (args : Args) (w : World) : List Event :=
  let r := tryPhase args w
  r.1 ++ handlerEvents args w r.2.1 r.2.2 ++ finallyEvents args w r.2.1

/-- The browser instance was successfully launched in this run: the browser is
one of the three supported backends and no exception struck before the driver
variable was assigned. -/
def driverLaunched (args : Args) (w : World) : Bool :=
  supportedBrowser args &&
  (match w.launch with
   | LaunchOutcome.failBefore _ => false
   | _ => true)

/-- The run took a failure path: an exception after launch, a failed
wait/interaction, or an exception during result extraction. -/
def failurePath (w : World) : Bool :=
  match w.launch with
  | LaunchOutcome.failAfter _ => true
  | LaunchOutcome.failBefore _ => false
  | LaunchOutcome.ok =>
    match w.run with
    | RunOutcome.stepFail _ _ => true
    | RunOutcome.extract (ExtractOutcome.primaryRaised _) => true
    | RunOutcome.extract (ExtractOutcome.primaryTimeout (SecondaryOutcome.raised _)) => true
    | RunOutcome.extract _ => false

/-! ## Helper lemmas about association-list lookup and the re-prompt loops -/

theorem lookup_mem_values {l : List (String × String)} {x v : String}
    (h : l.lookup x = some v) : v ∈ l.map Prod.snd := by
  induction l with
  | nil => simp [List.lookup] at h
  | cons kv tl ih =>
    obtain ⟨k, b⟩ := kv
    rw [List.lookup] at h
    cases hbe : x == k
    · rw [hbe] at h
      exact List.mem_cons_of_mem _ (ih h)
    · rw [hbe] at h
      simp at h
      subst h
      exact List.mem_cons_self _ _

theorem lookup_eq_none_keys {l : List (String × String)} {x : String}
    (h : x ∉ l.map Prod.fst) : l.lookup x = none := by
  induction l with
  | nil => rfl
  | cons kv tl ih =>
    obtain ⟨k, b⟩ := kv
    simp only [List.map_cons, List.mem_cons, not_or] at h
    rw [List.lookup]
    have hbe : (x == k) = false := by
      simpa using h.1
    rw [hbe]
    exact ih h.2

theorem firstValid_some {p : String → Bool} {l : List String} {y : String}
    (h : firstValid p l = some y) : p y = true := by
  induction l with
  | nil => simp [firstValid] at h
  | cons x xs ih =>
    rw [firstValid] at h
    by_cases hx : p x = true
    · simp [hx] at h
      subst h
      exact hx
    · simp [hx] at h
      exact ih h

theorem statusFromChoices_mem {l : List String} {name : String}
    (h : statusFromChoices l = some name) : name ∈ filingStatusNames := by
  induction l with
  | nil => simp [statusFromChoices] at h
  | cons x xs ih =>
    rw [statusFromChoices] at h
    cases hx : filing_status_options.lookup x with
    | none => rw [hx] at h; exact ih h
    | some v =>
      rw [hx] at h
      simp at h
      subst h
      have := lookup_mem_values hx
      simpa [filing_status_options, filingStatusNames] using this

/-! ## Claims -/

/-- C5: identifier normalization strips separator characters, so
`"123-45-6789"` and `"123456789"` produce identical normalized identifiers. -/
theorem C5_identifier_normalization :
    pyReplaceDashes "123-45-6789" = "123456789" ∧
    pyReplaceDashes "123456789" = "123456789" ∧
    pyReplaceDashes "123-45-6789" = pyReplaceDashes "123456789" := by
  refine ⟨by decide, by decide, by decide⟩

/-- C1 counterexample: the stored filing-status value `"mfj"` is outside the
five menu codes, yet the resolver maps it (to `MARRIED_FILING_JOINT`) instead
of terminating the process, because the lookup upper-cases first. -/
theorem C1_counterexample :
    "mfj" ∉ filingStatusNames ∧
    resolveFilingStatus "mfj" = some "MARRIED_FILING_JOINT" ∧
    (get_user_data ⟨"chrome", false, false, false⟩
        ⟨some "123456789", some "2023", some "mfj", some "1234"⟩
        ⟨"", [], [], [], ""⟩ SaveOutcome.allOk).1 ≠ Except.error GErr.exited := by
  refine ⟨by decide, by decide, by decide⟩

/-- C1 (amended): each of the five filing-status menu codes resolves to
exactly one target code string, the five targets are pairwise distinct, any
stored value whose upper-cased form is outside the five codes resolves to
nothing, and on such a stored value `get_user_data` terminates the process. -/
theorem C1_filing_status_resolution :
    (resolveFilingStatus "SINGLE" = some "SINGLE" ∧
     resolveFilingStatus "MFJ" = some "MARRIED_FILING_JOINT" ∧
     resolveFilingStatus "MFS" = some "MARRIED_FILING_SEPARATE" ∧
     resolveFilingStatus "HOH" = some "HEAD_OF_HOUSEHOLD" ∧
     resolveFilingStatus "QW" = some "QUALIFYING_SURVIVING_SPOUSE") ∧
    (filing_status_id_map.map Prod.snd).Pairwise (fun a b => a ≠ b) ∧
    (∀ s : String, pyUpper s ∉ filingStatusNames → resolveFilingStatus s = none) ∧
    (∀ args env io so, allPresentB env = true →
      resolveFilingStatus (env.filing_status.getD "") = none →
      (get_user_data args env io so).1 = Except.error GErr.exited) := by
  refine ⟨by refine ⟨by decide, by decide, by decide, by decide, by decide⟩, by decide, ?_, ?_⟩
  · intro s hs
    have hk : pyUpper s ∉ filing_status_id_map.map Prod.fst := by
      simpa [filing_status_id_map, filingStatusNames] using hs
    exact lookup_eq_none_keys hk
  · intro args env io so hall hnone
    simp [get_user_data, hall, hnone]

/-- C1 witness: the amended claim applied to the concrete stored value
`"married"`, whose upper-cased form is outside the five codes. -/
theorem C1_filing_status_resolution_witness :
    resolveFilingStatus "married" = none ∧
    (get_user_data ⟨"chrome", false, false, false⟩
        ⟨some "123456789", some "2023", some "married", some "1234"⟩
        ⟨"", [], [], [], ""⟩ SaveOutcome.allOk).1 = Except.error GErr.exited := by
  refine ⟨C1_filing_status_resolution.2.2.1 "married" (by decide),
          C1_filing_status_resolution.2.2.2 ⟨"chrome", false, false, false⟩
            ⟨some "123456789", some "2023", some "married", some "1234"⟩
            ⟨"", [], [], [], ""⟩ SaveOutcome.allOk (by decide)
            (C1_filing_status_resolution.2.2.1 "married" (by decide))⟩

/-- C10: filing-status matching is case-insensitive: any string whose
upper-cased form is one of the five codes resolves to the same target code
string as the upper-cased code. -/
theorem C10_case_insensitive (s : String) (h : pyUpper s ∈ filingStatusNames) :
    ∃ t, resolveFilingStatus s = some t ∧ resolveFilingStatus (pyUpper s) = some t := by
  simp only [filingStatusNames, List.mem_cons, List.not_mem_nil, or_false] at h
  rcases h with h | h | h | h | h
  · exact ⟨"SINGLE", by unfold resolveFilingStatus; rw [h]; decide, by rw [h]; decide⟩
  · exact ⟨"MARRIED_FILING_JOINT", by unfold resolveFilingStatus; rw [h]; decide,
      by rw [h]; decide⟩
  · exact ⟨"MARRIED_FILING_SEPARATE", by unfold resolveFilingStatus; rw [h]; decide,
      by rw [h]; decide⟩
  · exact ⟨"HEAD_OF_HOUSEHOLD", by unfold resolveFilingStatus; rw [h]; decide,
      by rw [h]; decide⟩
  · exact ⟨"QUALIFYING_SURVIVING_SPOUSE", by unfold resolveFilingStatus; rw [h]; decide,
      by rw [h]; decide⟩

/-- C10 witness: the lower-case stored value `"mfj"` resolves like `"MFJ"`. -/
theorem C10_case_insensitive_witness :
    ∃ t, resolveFilingStatus "mfj" = some t ∧
      resolveFilingStatus (pyUpper "mfj") = some t :=
  C10_case_insensitive "mfj" (by decide)

/-- Structure of a successful `get_user_data` run: either the `.env` path
(all four values present, used verbatim, store untouched) or the interactive
path (values from the validation loops, store written only under the save
conditions). -/
theorem get_user_data_ok_spec (args : Args) (env : EnvFile) (io : Interactive)
    (so : SaveOutcome) (r : UserData) (env2 : EnvFile)
    (hok : get_user_data args env io so = (Except.ok r, env2)) :
    (allPresentB env = true ∧
      r.ssn = (if env.ssn.getD "" == "" then "" else pyReplaceDashes (env.ssn.getD "")) ∧
      r.tax_year = env.tax_year.getD "" ∧
      r.filing_status_name = env.filing_status.getD "" ∧
      r.amount = env.refund_amount.getD "" ∧
      resolveFilingStatus r.filing_status_name = some r.filing_status_id ∧
      env2 = env) ∨
    (allPresentB env = false ∧
      r.ssn = (if io.ssn_input == "" then "" else pyReplaceDashes io.ssn_input) ∧
      firstValid valid_tax_year io.tax_year_inputs = some r.tax_year ∧
      statusFromChoices io.status_inputs = some r.filing_status_name ∧
      firstValid pyIsDigit io.amount_inputs = some r.amount ∧
      resolveFilingStatus r.filing_status_name = some r.filing_status_id ∧
      env2 = (if args.save_env && (pyStripLower io.confirm_save == "yes") then
                (save_to_env io.ssn_input r.tax_year r.filing_status_name r.amount env so).2
              else env)) := by
  cases hb : allPresentB env with
  | true =>
    left
    simp only [get_user_data, hb, Bool.not_true, Bool.false_eq_true, if_neg] at hok
    cases hres : resolveFilingStatus (env.filing_status.getD "") with
    | none => simp [hres] at hok
    | some fsid =>
      simp [hres] at hok
      obtain ⟨hr, henv⟩ := hok
      subst hr
      subst henv
      simp [hres]
  | false =>
    right
    simp only [get_user_data, hb, Bool.not_false, if_pos] at hok
    cases hy : firstValid valid_tax_year io.tax_year_inputs with
    | none => simp [hy] at hok
    | some y =>
      cases hs : statusFromChoices io.status_inputs with
      | none => simp [hy, hs] at hok
      | some name =>
        cases ha : firstValid pyIsDigit io.amount_inputs with
        | none => simp [hy, hs, ha] at hok
        | some a =>
          cases hres : resolveFilingStatus name with
          | none => simp [hy, hs, ha, hres] at hok
          | some fsid =>
            simp [hy, hs, ha, hres] at hok
            obtain ⟨hr, henv⟩ := hok
            subst hr
            subst henv
            simp [hy, hs, ha, hres]

/-- The `.env` store after any `get_user_data` run: unchanged, unless the
interactive path ran with the save flag and a confirmed save. -/
theorem get_user_data_env_cases (args : Args) (env : EnvFile) (io : Interactive)
    (so : SaveOutcome) (res : Except GErr UserData) (env2 : EnvFile)
    (h : get_user_data args env io so = (res, env2)) :
    env2 = env ∨
    (allPresentB env = false ∧ args.save_env = true ∧
     pyStripLower io.confirm_save = "yes" ∧
     ∃ y name a, firstValid valid_tax_year io.tax_year_inputs = some y ∧
       statusFromChoices io.status_inputs = some name ∧
       firstValid pyIsDigit io.amount_inputs = some a ∧
       env2 = (save_to_env io.ssn_input y name a env so).2) := by
  cases hb : allPresentB env with
  | true =>
    left
    simp only [get_user_data, hb, Bool.not_true, Bool.false_eq_true, if_neg] at h
    cases hres : resolveFilingStatus (env.filing_status.getD "") with
    | none => simp [hres] at h; exact h.2.symm
    | some fsid => simp [hres] at h; exact h.2.symm
  | false =>
    simp only [get_user_data, hb, Bool.not_false, if_pos] at h
    cases hy : firstValid valid_tax_year io.tax_year_inputs with
    | none => simp [hy] at h; exact Or.inl h.2.symm
    | some y =>
      cases hs : statusFromChoices io.status_inputs with
      | none => simp [hy, hs] at h; exact Or.inl h.2.symm
      | some name =>
        cases ha : firstValid pyIsDigit io.amount_inputs with
        | none => simp [hy, hs, ha] at h; exact Or.inl h.2.symm
        | some a =>
          cases hsave : args.save_env && (pyStripLower io.confirm_save == "yes") with
          | false =>
            left
            cases hres : resolveFilingStatus name with
            | none => simp [hy, hs, ha, hres, hsave] at h; exact h.2.symm
            | some fsid => simp [hy, hs, ha, hres, hsave] at h; exact h.2.symm
          | true =>
            right
            obtain ⟨hflag, hyes⟩ := Bool.and_eq_true_iff.mp hsave
            refine ⟨rfl, hflag, by simpa using hyes, y, name, a, rfl, rfl, rfl, ?_⟩
            cases hres : resolveFilingStatus name with
            | none => simp [hy, hs, ha, hres, hsave] at h; exact h.2.symm
            | some fsid => simp [hy, hs, ha, hres, hsave] at h; exact h.2.symm

/-- C4 counterexample: a stored identifier containing a letter passes through
normalization unvalidated, so the returned record's identifier is not
digits-only. -/
theorem C4_counterexample :
    (get_user_data ⟨"chrome", false, false, false⟩
        ⟨some "12a-456789", some "2023", some "MFJ", some "1234"⟩
        ⟨"", [], [], [], ""⟩ SaveOutcome.allOk).1 =
      Except.ok ⟨"12a456789", "2023", "MARRIED_FILING_JOINT", "MFJ", "1234"⟩ ∧
    ("12a456789".data.all Char.isDigit) = false := by
  refine ⟨by decide, by decide⟩

/-- Characters of `pyReplaceDashes s` that are digits-or-hyphens are digits. -/
theorem pyReplaceDashes_digits (s : String)
    (h : ∀ c ∈ s.data, c.isDigit = true ∨ c = '-') :
    (pyReplaceDashes s).data.all Char.isDigit = true := by
  simp only [pyReplaceDashes, List.all_eq_true]
  intro c hc
  rcases List.mem_filter.mp hc with ⟨hmem, hne⟩
  rcases h c hmem with hd | he
  · exact hd
  · rw [he] at hne
    simp at hne

/-- C4 (amended): whenever the identifier input (stored or interactive)
consists only of digit and hyphen characters, the identifier in the returned
record is digits-only after normalization. -/
theorem C4_identifier_digits (args : Args) (env : EnvFile) (io : Interactive)
    (so : SaveOutcome) (r : UserData) (env2 : EnvFile)
    (hok : get_user_data args env io so = (Except.ok r, env2))
    (henv : ∀ c ∈ (env.ssn.getD "").data, c.isDigit = true ∨ c = '-')
    (hio : ∀ c ∈ io.ssn_input.data, c.isDigit = true ∨ c = '-') :
    r.ssn.data.all Char.isDigit = true := by
  rcases get_user_data_ok_spec args env io so r env2 hok with
    ⟨_, hssn, _⟩ | ⟨_, hssn, _⟩ <;>
  · rw [hssn]
    split
    · decide
    · first
      | exact pyReplaceDashes_digits _ henv
      | exact pyReplaceDashes_digits _ hio

/-- C4 witness: the amended claim applied to the stored identifier
`"123-45-6789"`. -/
theorem C4_identifier_digits_witness :
    (get_user_data ⟨"chrome", false, false, false⟩
        ⟨some "123-45-6789", some "2023", some "MFJ", some "1234"⟩
        ⟨"", [], [], [], ""⟩ SaveOutcome.allOk =
      (Except.ok ⟨"123456789", "2023", "MARRIED_FILING_JOINT", "MFJ", "1234"⟩,
       ⟨some "123-45-6789", some "2023", some "MFJ", some "1234"⟩)) ∧
    ("123456789" : String).data.all Char.isDigit = true := by
  refine ⟨by decide, ?_⟩
  exact C4_identifier_digits ⟨"chrome", false, false, false⟩
    ⟨some "123-45-6789", some "2023", some "MFJ", some "1234"⟩
    ⟨"", [], [], [], ""⟩ SaveOutcome.allOk
    ⟨"123456789", "2023", "MARRIED_FILING_JOINT", "MFJ", "1234"⟩
    ⟨some "123-45-6789", some "2023", some "MFJ", some "1234"⟩
    (by decide) (by decide) (by decide)

/-- C6 counterexample: a stored tax year outside the enumerated set is used
verbatim in the returned record. -/
theorem C6_counterexample :
    (get_user_data ⟨"chrome", false, false, false⟩
        ⟨some "123456789", some "1999", some "MFJ", some "1234"⟩
        ⟨"", [], [], [], ""⟩ SaveOutcome.allOk).1 =
      Except.ok ⟨"123456789", "1999", "MARRIED_FILING_JOINT", "MFJ", "1234"⟩ ∧
    "1999" ∉ supportedYears := by
  refine ⟨by decide, by decide⟩

/-- C6 (amended): in every record built from interactive collection the
tax-year field is one of the supported years (2024, 2023, 2022, 2021);
records built verbatim from the key-value store carry the stored value
unvalidated. -/
theorem C6_tax_year_interactive (args : Args) (env : EnvFile) (io : Interactive)
    (so : SaveOutcome) (r : UserData) (env2 : EnvFile)
    (hok : get_user_data args env io so = (Except.ok r, env2))
    (hmanual : allPresentB env = false) :
    r.tax_year ∈ supportedYears := by
  rcases get_user_data_ok_spec args env io so r env2 hok with
    ⟨hb, _⟩ | ⟨_, _, hy, _⟩
  · rw [hb] at hmanual; cases hmanual
  · have := firstValid_some hy
    simpa [valid_tax_year] using this

/-- C6 witness: the amended claim applied to an empty store and the
interactive year entries `["1999", "2023"]`. -/
theorem C6_tax_year_interactive_witness :
    ("2023" : String) ∈ supportedYears := by
  have h := C6_tax_year_interactive ⟨"chrome", false, false, false⟩
    ⟨none, none, none, none⟩
    ⟨"123456789", ["1999", "2023"], ["2"], ["1234"], "no"⟩
    SaveOutcome.allOk
    ⟨"123456789", "2023", "MARRIED_FILING_JOINT", "MFJ", "1234"⟩
    ⟨none, none, none, none⟩
    (by decide) (by decide)
  simpa using h

/-- C7: each interactive field accepts only valid input and re-prompts
otherwise: the tax-year loop returns only a year in the enumerated list, the
filing-status loop returns only a status selected by one of the five menu
numbers, the amount loop returns only a digits-only string, and every loop
skips an invalid entry and continues with the next one. -/
theorem C7_interactive_validation :
    (∀ inputs y, firstValid valid_tax_year inputs = some y → y ∈ supportedYears) ∧
    (∀ inputs name, statusFromChoices inputs = some name → name ∈ filingStatusNames) ∧
    (∀ inputs a, firstValid pyIsDigit inputs = some a → pyIsDigit a = true) ∧
    (∀ p x xs, p x = false → firstValid p (x :: xs) = firstValid p xs) ∧
    (∀ x xs, x ∉ ["1", "2", "3", "4", "5"] →
      statusFromChoices (x :: xs) = statusFromChoices xs) := by
  refine ⟨?_, ?_, ?_, ?_, ?_⟩
  · intro inputs y h
    have := firstValid_some h
    simpa [valid_tax_year] using this
  · intro inputs name h
    exact statusFromChoices_mem h
  · intro inputs a h
    exact firstValid_some h
  · intro p x xs hx
    rw [firstValid, hx]
    simp
  · intro x xs hx
    have hk : x ∉ filing_status_options.map Prod.fst := by
      simpa [filing_status_options] using hx
    rw [statusFromChoices, lookup_eq_none_keys hk]

/-- C7 witness: a run of each loop on concrete input streams that start with
an invalid entry. -/
theorem C7_interactive_validation_witness :
    ("2023" ∈ supportedYears) ∧
    ("MFJ" ∈ filingStatusNames) ∧
    (pyIsDigit "1234" = true) ∧
    (firstValid valid_tax_year ["1999", "2023"] = firstValid valid_tax_year ["2023"]) ∧
    (statusFromChoices ["7", "2"] = statusFromChoices ["2"]) := by
  refine ⟨C7_interactive_validation.1 ["1999", "2023"] "2023" (by decide),
          C7_interactive_validation.2.1 ["7", "2"] "MFJ" (by decide),
          C7_interactive_validation.2.2.1 ["12a", "1234"] "1234" (by decide),
          C7_interactive_validation.2.2.2.1 valid_tax_year "1999" ["2023"] (by decide),
          C7_interactive_validation.2.2.2.2 "7" ["2"] (by decide)⟩

/-- C8 counterexample: a run satisfying all three gating conditions
(interactive entry, save flag set, confirmed `yes`) in which the second
`set_key` call raises leaves the store with only the identifier written —
not the four raw values — because `save_to_env` catches the exception and
returns (lines 39-41). -/
theorem C8_counterexample :
    get_user_data ⟨"chrome", false, false, true⟩
        ⟨none, none, none, none⟩
        ⟨"123-45-6789", ["2023"], ["2"], ["1234"], "yes"⟩
        SaveOutcome.failYear =
      (Except.ok ⟨"123456789", "2023", "MARRIED_FILING_JOINT", "MFJ", "1234"⟩,
       ⟨some "123-45-6789", none, none, none⟩) ∧
    (⟨some "123-45-6789", none, none, none⟩ : EnvFile) ≠
      ⟨some "123-45-6789", some "2023", some "MFJ", some "1234"⟩ := by
  refine ⟨by decide, by decide⟩

/-- C8 (amended): the key-value store is written only when the values were
entered interactively, the save opt-in flag is set, and the user confirms
after the plaintext warning; when additionally the four `set_key` writes
succeed, exactly the four raw values are written; a write that raises leaves
only the keys already written before it; in every other case the store is
left unchanged by the resolver. -/
theorem C8_env_persistence (args : Args) (env : EnvFile) (io : Interactive)
    (so : SaveOutcome) (res : Except GErr UserData) (env2 : EnvFile)
    (h : get_user_data args env io so = (res, env2)) :
    (allPresentB env = true → env2 = env) ∧
    (args.save_env = false → env2 = env) ∧
    (pyStripLower io.confirm_save ≠ "yes" → env2 = env) ∧
    (∀ r, res = Except.ok r → allPresentB env = false → args.save_env = true →
      pyStripLower io.confirm_save = "yes" → so = SaveOutcome.allOk →
      env2 = { ssn := some io.ssn_input, tax_year := some r.tax_year,
               filing_status := some r.filing_status_name,
               refund_amount := some r.amount }) ∧
    (∀ r, res = Except.ok r → allPresentB env = false → args.save_env = true →
      pyStripLower io.confirm_save = "yes" →
      env2 = (save_to_env io.ssn_input r.tax_year r.filing_status_name
                r.amount env so).2) := by
  have hwrite : ∀ r, res = Except.ok r → allPresentB env = false →
      args.save_env = true → pyStripLower io.confirm_save = "yes" →
      env2 = (save_to_env io.ssn_input r.tax_year r.filing_status_name
                r.amount env so).2 := by
    intro r hres hmanual hflag hyes
    subst hres
    rcases get_user_data_ok_spec args env io so r env2 h with
      ⟨hb, _⟩ | ⟨_, _, _, _, _, _, henv⟩
    · rw [hb] at hmanual; cases hmanual
    · rw [henv, hflag]
      simp [hyes]
  refine ⟨?_, ?_, ?_, ?_, hwrite⟩
  · intro hall
    rcases get_user_data_env_cases args env io so res env2 h with he | ⟨hm, _⟩
    · exact he
    · rw [hall] at hm; cases hm
  · intro hflag
    rcases get_user_data_env_cases args env io so res env2 h with he | ⟨_, hf, _⟩
    · exact he
    · rw [hflag] at hf; cases hf
  · intro hyes
    rcases get_user_data_env_cases args env io so res env2 h with he | ⟨_, _, hy, _⟩
    · exact he
    · exact absurd hy hyes
  · intro r hres hmanual hflag hyes hso
    subst hso
    rw [hwrite r hres hmanual hflag hyes]
    simp [save_to_env]

/-- C8 witness: an interactive run with the save flag set, a confirmed save
and all four writes succeeding stores exactly the four raw values. -/
theorem C8_env_persistence_witness :
    (⟨some "123-45-6789", some "2023", some "MFJ", some "1234"⟩ : EnvFile) =
      { ssn := some "123-45-6789", tax_year := some "2023",
        filing_status := some "MFJ", refund_amount := some "1234" } := by
  have h := C8_env_persistence ⟨"chrome", false, false, true⟩
    ⟨none, none, none, none⟩
    ⟨"123-45-6789", ["2023"], ["2"], ["1234"], " YES "⟩
    SaveOutcome.allOk
    (Except.ok ⟨"123456789", "2023", "MARRIED_FILING_JOINT", "MFJ", "1234"⟩)
    ⟨some "123-45-6789", some "2023", some "MFJ", some "1234"⟩
    (by decide)
  exact h.2.2.2.1 ⟨"123456789", "2023", "MARRIED_FILING_JOINT", "MFJ", "1234"⟩
    rfl (by decide) rfl (by decide) rfl

/-! ## Helper lemmas about the driver trace -/

theorem quit_not_mem_attemptDump (a b : String) (d : DumpWorld) :
    Event.quit ∉ attemptDump a b d := by
  unfold attemptDump
  split
  · split <;> simp
  · simp

theorem quit_not_mem_failureDump (p : Bool) (args : Args) (d : DumpWorld) :
    Event.quit ∉ failureDump p args d := by
  unfold failureDump
  split
  · exact quit_not_mem_attemptDump _ _ _
  · simp

theorem quit_not_mem_tryPhase (args : Args) (w : World) :
    Event.quit ∉ (tryPhase args w).1 := by
  obtain ⟨launch, run, dump, finalDump⟩ := w
  unfold tryPhase
  split
  · simp
  · cases launch with
    | failBefore e => simp
    | failAfter e => simp
    | ok =>
      cases run with
      | stepFail i e => simp
      | extract x =>
        cases x with
        | primaryVisible t => simp [extractEvents]
        | primaryTimeout sec =>
          cases sec <;> simp [extractEvents]
        | primaryRaised m =>
          simp [extractEvents]
          exact quit_not_mem_failureDump _ _ _

theorem quit_not_mem_handlerEvents (args : Args) (w : World) (p : Bool)
    (o : Option ExcKind) : Event.quit ∉ handlerEvents args w p o := by
  cases o with
  | none => simp [handlerEvents]
  | some e =>
    simp [handlerEvents]
    exact quit_not_mem_failureDump _ _ _

theorem tryPhase_driverPresent (args : Args) (w : World)
    (h : driverLaunched args w = true) : (tryPhase args w).2.1 = true := by
  obtain ⟨launch, run, dump, finalDump⟩ := w
  rw [driverLaunched, Bool.and_eq_true] at h
  obtain ⟨hsup, hl⟩ := h
  unfold tryPhase
  simp only [hsup, Bool.not_true, Bool.false_eq_true, if_neg, if_false]
  cases launch with
  | failBefore e => simp at hl
  | failAfter e => simp
  | ok =>
    cases run with
    | stepFail i e => simp
    | extract x => simp

/-- C3: whenever the browser instance was successfully launched, the trace
ends with the single `quit()` of the unconditional `finally` block, on every
path of the driver. -/
theorem C3_browser_always_quit (args : Args) (w : World)
    (h : driverLaunched args w = true) :
    (check_irs_status args w).getLast? = some Event.quit ∧
    (check_irs_status args w).count Event.quit = 1 := by
  have hp := tryPhase_driverPresent args w h
  have h1 := quit_not_mem_tryPhase args w
  have h2 := quit_not_mem_handlerEvents args w (tryPhase args w).2.1 (tryPhase args w).2.2
  have h3 : Event.quit ∉
      (if args.debug then
        attemptDump "irs_final_debug_screenshot.png" "irs_final_debug_page.html" w.finalDump
       else []) := by
    split
    · exact quit_not_mem_attemptDump _ _ _
    · simp
  rw [check_irs_status]
  rw [hp] at h2
  rw [hp, finallyEvents, if_pos rfl]
  constructor
  · rw [List.getLast?_append_of_ne_nil _ (by simp), List.getLast?_append_of_ne_nil _ (by simp)]
    rfl
  · rw [List.count_append, List.count_append, List.count_append]
    rw [List.count_eq_zero.mpr h1, List.count_eq_zero.mpr h2, List.count_eq_zero.mpr h3]
    simp

/-- C3 witness: a successful chrome run quits exactly once, at the end. -/
theorem C3_browser_always_quit_witness :
    (check_irs_status ⟨"chrome", false, false, false⟩
        ⟨LaunchOutcome.ok, RunOutcome.extract (ExtractOutcome.primaryVisible "Refund Approved"),
         ⟨true, true⟩, ⟨true, true⟩⟩).getLast? = some Event.quit ∧
    (check_irs_status ⟨"chrome", false, false, false⟩
        ⟨LaunchOutcome.ok, RunOutcome.extract (ExtractOutcome.primaryVisible "Refund Approved"),
         ⟨true, true⟩, ⟨true, true⟩⟩).count Event.quit = 1 :=
  C3_browser_always_quit ⟨"chrome", false, false, false⟩
    ⟨LaunchOutcome.ok, RunOutcome.extract (ExtractOutcome.primaryVisible "Refund Approved"),
     ⟨true, true⟩, ⟨true, true⟩⟩ (by decide)

/-- C2: in the result-extraction step, a visible primary current-step
indicator reports its list item's text, a timed-out primary followed by a
visible secondary alert reports the alert's text, and a double timeout
reports that no result was determined; each of the three traces goes
straight to teardown with no failure handler involved. -/
theorem C2_result_extraction (args : Args) (w : World)
    (hsup : supportedBrowser args = true) (hok : w.launch = LaunchOutcome.ok) :
    (∀ t, w.run = RunOutcome.extract (ExtractOutcome.primaryVisible t) →
      check_irs_status args w =
        Event.reportStatus (pyStrip t) :: finallyEvents args w true) ∧
    (∀ t, w.run = RunOutcome.extract
        (ExtractOutcome.primaryTimeout (SecondaryOutcome.visible t)) →
      check_irs_status args w =
        Event.reportAlert (pyStrip t) :: finallyEvents args w true) ∧
    (w.run = RunOutcome.extract (ExtractOutcome.primaryTimeout SecondaryOutcome.timedOut) →
      check_irs_status args w = Event.reportNoResult :: finallyEvents args w true) := by
  refine ⟨?_, ?_, ?_⟩
  · intro t hrun
    simp [check_irs_status, tryPhase, hsup, hok, hrun, extractEvents, handlerEvents]
  · intro t hrun
    simp [check_irs_status, tryPhase, hsup, hok, hrun, extractEvents, handlerEvents]
  · intro hrun
    simp [check_irs_status, tryPhase, hsup, hok, hrun, extractEvents, handlerEvents]

/-- C2 witness: a run in which neither indicator appears before the timeout
reports that no result could be determined and still tears down normally. -/
theorem C2_result_extraction_witness :
    check_irs_status ⟨"chrome", false, false, false⟩
        ⟨LaunchOutcome.ok, RunOutcome.extract
          (ExtractOutcome.primaryTimeout SecondaryOutcome.timedOut),
         ⟨true, true⟩, ⟨true, true⟩⟩ =
      Event.reportNoResult :: finallyEvents ⟨"chrome", false, false, false⟩
        ⟨LaunchOutcome.ok, RunOutcome.extract
          (ExtractOutcome.primaryTimeout SecondaryOutcome.timedOut),
         ⟨true, true⟩, ⟨true, true⟩⟩ true :=
  (C2_result_extraction ⟨"chrome", false, false, false⟩
    ⟨LaunchOutcome.ok, RunOutcome.extract
      (ExtractOutcome.primaryTimeout SecondaryOutcome.timedOut),
     ⟨true, true⟩, ⟨true, true⟩⟩ (by decide) rfl).2.2 rfl

/-- C9 counterexample: with debug mode off, a failure path (a timed-out
wait) writes no file at all — the trace is just the failure report and the
quit — so the screenshot and markup dump are not written on every failure
path. -/
theorem C9_counterexample :
    failurePath ⟨LaunchOutcome.ok, RunOutcome.stepFail 1 ExcKind.timeoutExc,
        ⟨true, true⟩, ⟨true, true⟩⟩ = true ∧
    check_irs_status ⟨"chrome", false, false, false⟩
        ⟨LaunchOutcome.ok, RunOutcome.stepFail 1 ExcKind.timeoutExc,
         ⟨true, true⟩, ⟨true, true⟩⟩ =
      [Event.reportFailure ExcKind.timeoutExc, Event.quit] := by
  refine ⟨by decide, by decide⟩

/-- C9 (amended): on every failure path of a run in which the browser was
launched, if debug mode is enabled and the dump writes succeed, the
screenshot (`irs_debug_screenshot.png`) and HTML dump (`irs_debug_page.html`)
are written; and in every debug-mode run in which the browser was launched,
the final pair (`irs_final_debug_screenshot.png`, `irs_final_debug_page.html`)
is additionally written at teardown. -/
theorem C9_debug_dumps (args : Args) (w : World)
    (hdbg : args.debug = true)
    (hl : driverLaunched args w = true)
    (hd1 : w.dump.shotOk = true) (hd2 : w.dump.htmlOk = true)
    (hf1 : w.finalDump.shotOk = true) (hf2 : w.finalDump.htmlOk = true) :
    (failurePath w = true →
      Event.writeFile "irs_debug_screenshot.png" ∈ check_irs_status args w ∧
      Event.writeFile "irs_debug_page.html" ∈ check_irs_status args w) ∧
    (Event.writeFile "irs_final_debug_screenshot.png" ∈ check_irs_status args w ∧
     Event.writeFile "irs_final_debug_page.html" ∈ check_irs_status args w) := by
  have hp := tryPhase_driverPresent args w hl
  have hsup : supportedBrowser args = true := by
    rw [driverLaunched, Bool.and_eq_true] at hl
    exact hl.1
  obtain ⟨launch, run, dump, finalDump⟩ := w
  simp only at hd1 hd2 hf1 hf2
  constructor
  · intro hfail
    rw [check_irs_status]
    rw [failurePath] at hfail
    cases launch with
    | failBefore e => simp at hfail
    | failAfter e =>
      simp [tryPhase, hsup, handlerEvents, failureDump, hdbg, attemptDump, hd1, hd2]
    | ok =>
      cases run with
      | stepFail i e =>
        simp [tryPhase, hsup, handlerEvents, failureDump, hdbg, attemptDump, hd1, hd2]
      | extract x =>
        cases x with
        | primaryVisible t => simp at hfail
        | primaryRaised m =>
          simp [tryPhase, hsup, extractEvents, handlerEvents, failureDump, hdbg,
                attemptDump, hd1, hd2]
        | primaryTimeout sec =>
          cases sec with
          | visible t => simp at hfail
          | timedOut => simp at hfail
          | raised e =>
            simp [tryPhase, hsup, extractEvents, handlerEvents, failureDump, hdbg,
                  attemptDump, hd1, hd2]
  · rw [check_irs_status, hp, finallyEvents]
    simp [hdbg, attemptDump, hf1, hf2]

/-- C9 witness: the amended claim applied to a debug-mode chrome run whose
refund-amount wait times out. -/
theorem C9_debug_dumps_witness :
    (failurePath ⟨LaunchOutcome.ok, RunOutcome.stepFail 4 ExcKind.timeoutExc,
        ⟨true, true⟩, ⟨true, true⟩⟩ = true →
      Event.writeFile "irs_debug_screenshot.png" ∈
        check_irs_status ⟨"chrome", false, true, false⟩
          ⟨LaunchOutcome.ok, RunOutcome.stepFail 4 ExcKind.timeoutExc,
           ⟨true, true⟩, ⟨true, true⟩⟩ ∧
      Event.writeFile "irs_debug_page.html" ∈
        check_irs_status ⟨"chrome", false, true, false⟩
          ⟨LaunchOutcome.ok, RunOutcome.stepFail 4 ExcKind.timeoutExc,
           ⟨true, true⟩, ⟨true, true⟩⟩) ∧
    (Event.writeFile "irs_final_debug_screenshot.png" ∈
      check_irs_status ⟨"chrome", false, true, false⟩
        ⟨LaunchOutcome.ok, RunOutcome.stepFail 4 ExcKind.timeoutExc,
         ⟨true, true⟩, ⟨true, true⟩⟩ ∧
     Event.writeFile "irs_final_debug_page.html" ∈
      check_irs_status ⟨"chrome", false, true, false⟩
        ⟨LaunchOutcome.ok, RunOutcome.stepFail 4 ExcKind.timeoutExc,
         ⟨true, true⟩, ⟨true, true⟩⟩) :=
  C9_debug_dumps ⟨"chrome", false, true, false⟩
    ⟨LaunchOutcome.ok, RunOutcome.stepFail 4 ExcKind.timeoutExc,
     ⟨true, true⟩, ⟨true, true⟩⟩
    rfl (by decide) rfl rfl rfl rfl
